import Mathlib

/-!
Verification of the reCAPTCHA token service (`src/services/recaptcha_service.py`)
against its natural-language specification.

The Python service is shallowly embedded: pure helpers become Lean functions,
Python dict/str/None values the evaluate call can produce become `PyValue`,
fallible steps become `Except` or oracle parameters, and the concurrency
of the asyncio event loop (lock, semaphore, page cache) becomes explicit
transition systems whose atomic steps are the code regions between awaits.
-/

namespace Recaptcha

/-- Does `pat` occur at the head of `s` (on character lists)? -/
def hasPrefixChars : List Char → List Char → Bool
  | [], _ => true
  | _ :: _, [] => false
  | c :: cs, d :: ds => c == d && hasPrefixChars cs ds

/-- Does `pat` occur anywhere inside `s` (on character lists)? -/
def hasInfixChars (pat : List Char) : List Char → Bool
  | [] => hasPrefixChars pat []
  | d :: ds => hasPrefixChars pat (d :: ds) || hasInfixChars pat ds

/-- Python's `pat in s` substring test on strings. -/
def strContains (s pat : String) : Bool :=
  hasInfixChars pat.toList s.toList

/-- ASCII lowering of one character, as `str.lower()` acts on the URL
characters involved here. -/
def lowerChar (c : Char) : Char :=
  if 65 ≤ c.toNat ∧ c.toNat ≤ 90 then Char.ofNat (c.toNat + 32) else c

/-- Python's `s.lower()` on the ASCII range. -/
def lowerStr (s : String) : String := String.mk (s.toList.map lowerChar)

/-- Constant `MAX_EXECUTION_RETRIES = 2` (line 38). -/
def MAX_EXECUTION_RETRIES : Nat := 2

/-- Constant `RETRY_WAIT_TIME = 1` second (line 39). -/
def RETRY_WAIT_TIME : Nat := 1

/-- Constant `MAX_CONCURRENT_REQUESTS = 5` (line 42). -/
def MAX_CONCURRENT_REQUESTS : Nat := 5

/-- The substring by which the code recognises a transient navigation
interruption: `"Execution context was destroyed" in str(e)` (lines 200, 283, 390). -/
def destroyedMsg : String := "Execution context was destroyed"

/-- A Python value as produced by `page.evaluate` and consumed by
`_process_token_result` (line 422): a dict whose `token` / `error` keys are
each absent (`none`) or hold a string, a bare string, or `None`.
A present-but-empty string field models a falsy `token['token']`. -/
inductive PyValue
  | dict (token : Option String) (error : Option String)
  | str (s : String)
  | null
deriving DecidableEq

/-- Message returned for a falsy non-dict token (line 438). -/
def nullTokenMsg : String :=
  "Token获取失败，可能原因：reCAPTCHA脚本未加载、页面加载超时、或网络问题"

/-- `RecaptchaService._process_token_result` (lines 422-440): maps the evaluate
result to the `(token, error)` pair returned by `get_token`.
`if 'token' in token and token['token']` is key-present-and-truthy. -/
def process_token_result : PyValue → Option String × Option String
  | PyValue.dict t e =>
    match t with
    | some s =>
      if s = "" then (none, some ("reCAPTCHA执行失败: " ++ e.getD "Unknown error"))
      else (some s, none)
    | none => (none, some ("reCAPTCHA执行失败: " ++ e.getD "Unknown error"))
  | PyValue.str s => if s = "" then (none, some nullTokenMsg) else (some s, none)
  | PyValue.null => (none, some nullTokenMsg)

/-- Outcome of the body of `get_token`'s big `try` block (lines 493-525):
either control reaches `_process_token_result` with some evaluate result, or an
exception with message `m` is raised somewhere in the page/navigation/execution
path and lands in the `except Exception` handler (lines 526-531). -/
inductive BodyOutcome
  | value (v : PyValue)
  | raise (m : String)
deriving DecidableEq

/-- `RecaptchaService.get_token` (lines 477-531) at the level of its fault
structure.  `inited` is `self._initialized`; when it is false the service
initialisation runs first and its failure (`initRes = .error e`) propagates
uncaught (lines 486-487).  Everything inside the semaphore block is wrapped in
`try/except Exception`, which converts any raised fault into a `(None, reason)`
failure pair. -/
def get_token_model (inited : Bool) (initRes : Except String Unit)
    (body : BodyOutcome) : Except String (Option String × Option String) :=
  match (if inited then Except.ok () else initRes) with
  | Except.error e => Except.error e
  | Except.ok _ =>
    match body with
    | BodyOutcome.value v => Except.ok (process_token_result v)
    | BodyOutcome.raise m => Except.ok (none, some ("获取token异常: " ++ m))

/-- Outcome of one `page.evaluate` attempt inside `_execute_recaptcha`:
the resolved value, or a raised evaluation error with message `m`. -/
inductive EvalOutcome
  | ok (v : PyValue)
  | exn (m : String)
deriving DecidableEq

/-- Observable waiting actions of the executor: `_wait_for_page_stable` and
`asyncio.sleep` (lines 394-395). -/
inductive ExecAction
  | waitStable
  | sleepSecs (n : Nat)
deriving DecidableEq

/-- The `for retry in range(MAX_EXECUTION_RETRIES)` loop of
`_execute_recaptcha` (lines 298-400): `retry` is the current loop index and
`remaining` the iterations the range still offers, so the loop is entered with
`retry = 0` and `remaining = MAX_EXECUTION_RETRIES`.  `attempts i` is the
outcome of the evaluate call at iteration `i`.  Returns the dict the function
returns, the total number of evaluate attempts made, and the log of stability
waits / backoff sleeps performed between attempts.  The `remaining = 0` case
is the fallthrough after the loop (line 400). -/
def exec_attempts_go (attempts : Nat → EvalOutcome) :
    Nat → Nat → PyValue × Nat × List ExecAction
  | retry, 0 => (PyValue.dict none (some "执行失败：达到最大重试次数"), retry, [])
  | retry, remaining + 1 =>
    match attempts retry with
    | EvalOutcome.ok v => (v, retry + 1, [])
    | EvalOutcome.exn m =>
      if strContains m destroyedMsg = true ∧ retry < MAX_EXECUTION_RETRIES - 1 then
        let rest := exec_attempts_go attempts (retry + 1) remaining
        (rest.1, rest.2.1,
          ExecAction.waitStable :: ExecAction.sleepSecs RETRY_WAIT_TIME :: rest.2.2)
      else
        (PyValue.dict none (some ("Execution error: " ++ m)), retry + 1, [])

/-- `RecaptchaService._execute_recaptcha` (lines 294-400): an initial
stability wait (line 296) followed by the bounded retry loop. -/
def execute_recaptcha (attempts : Nat → EvalOutcome) :
    PyValue × Nat × List ExecAction :=
  let r := exec_attempts_go attempts 0 MAX_EXECUTION_RETRIES
  (r.1, r.2.1, ExecAction.waitStable :: r.2.2)

/-- A sub-resource request as seen by the route handler: its playwright
resource type and its URL. -/
structure RouteRequest where
  resourceType : String
  url : String
deriving DecidableEq

/-- The route handler's verdict: `route.continue_()` or `route.abort()`. -/
inductive RouteDecision
  | continued
  | aborted
deriving DecidableEq

/-- Primary allow-list `google_domains` (lines 149-156). -/
def google_domains : List String :=
  ["recaptcha", "google.com", "googleapis.com", "gstatic.com",
   "googleusercontent.com", "google-analytics.com"]

/-- `allowed_types` (line 146). -/
def allowed_types : List String :=
  ["document", "script", "xhr", "fetch", "websocket"]

/-- Blocked resource classes (line 168). -/
def blocked_types : List String :=
  ["image", "stylesheet", "font", "media"]

/-- Secondary allow-list for `resource_type == "other"` (line 174). -/
def other_domains : List String := ["google", "labs.google"]

/-- Does the lowercased URL contain some primary allow-list entry as a
substring (line 158)? -/
def urlHitsGoogle (req : RouteRequest) : Bool :=
  google_domains.any (fun d => strContains (lowerStr req.url) d)

/-- Does the lowercased URL contain some secondary allow-list entry as a
substring (line 174)? -/
def urlHitsOther (req : RouteRequest) : Bool :=
  other_domains.any (fun d => strContains (lowerStr req.url) d)

/-- `RecaptchaService._route_handler` (lines 139-181), decision part. -/
def route_handler (req : RouteRequest) : RouteDecision :=
  if urlHitsGoogle req then RouteDecision.continued
  else if allowed_types.contains req.resourceType then RouteDecision.continued
  else if blocked_types.contains req.resourceType then RouteDecision.aborted
  else if req.resourceType = "other" then
    if urlHitsOther req then RouteDecision.continued else RouteDecision.aborted
  else RouteDecision.continued

/-- Modelled from the spec: the claim's reading of the same ordered policy in
which rules (a) and (d) match the request's target HOST against the allow
lists, rather than the full URL.  Used only to compare against
`route_handler`, which is the authoritative embedding of the source. -/
def route_policy_spec (host : String) (resourceType : String) : RouteDecision :=
  if google_domains.any (fun d => strContains (lowerStr host) d) then RouteDecision.continued
  else if allowed_types.contains resourceType then RouteDecision.continued
  else if blocked_types.contains resourceType then RouteDecision.aborted
  else if resourceType = "other" then
    if other_domains.any (fun d => strContains (lowerStr host) d) then RouteDecision.continued
    else RouteDecision.aborted
  else RouteDecision.continued

/-- Lookup in the page cache, a key-to-page-id association list kept in
insertion order (a Python dict with string keys). -/
def lookupC : List (String × Nat) → String → Option Nat
  | [], _ => none
  | (k', p) :: rest, k => if k' = k then some p else lookupC rest k

/-- Python `del d[k]`: removes the binding of `k`.  Keys of a Python dict are
unique, so removing every binding of `k` coincides with removing the one. -/
def eraseKey : List (String × Nat) → String → List (String × Nat)
  | [], _ => []
  | (k', p) :: rest, k =>
    if k' = k then eraseKey rest k else (k', p) :: eraseKey rest k

/-- State of the page pool: `cache` is `self._page_cache` (pages named by the
order of their creation, `nextPage` being the id the next `new_page()` call
will produce), and `closedPages` records every page on which a `close()` call
has been issued. -/
structure PoolSt where
  cache : List (String × Nat)
  nextPage : Nat
  closedPages : List Nat
deriving DecidableEq

/-- The empty pool at service start. -/
def poolInit : PoolSt := { cache := [], nextPage := 0, closedPages := [] }

/-- `RecaptchaService._cleanup_invalid_pages` (lines 442-454): under the cache
lock, collect every entry whose `page.url` property read fails (`alive p =
false`) and delete those map entries.  The source issues no `close()` on the
removed pages, so `closedPages` is untouched. -/
def cleanup_invalid_pages (alive : Nat → Bool) (st : PoolSt) : PoolSt :=
  { st with cache := st.cache.filter (fun kv => alive kv.2) }

/-- The section of `_get_or_create_page` under the cache lock (lines
461-475): a hit whose liveness probe (`page.url`) succeeds is returned as is;
a dead hit is deleted and replaced by a fresh page; a miss creates and
inserts a fresh page. -/
def get_or_create_locked (alive : Nat → Bool) (k : String) (st1 : PoolSt) :
    Nat × PoolSt :=
  match lookupC st1.cache k with
  | some p =>
    if alive p then (p, st1)
    else
      (st1.nextPage,
       { st1 with cache := eraseKey st1.cache k ++ [(k, st1.nextPage)],
                  nextPage := st1.nextPage + 1 })
  | none =>
    (st1.nextPage,
     { st1 with cache := st1.cache ++ [(k, st1.nextPage)],
                nextPage := st1.nextPage + 1 })

/-- `RecaptchaService._get_or_create_page` (lines 456-475).  The sweep
prelude (lines 458-459) runs when the cache currently holds a positive
multiple of 10 entries; then the locked section runs. -/
def get_or_create_page (alive : Nat → Bool) (k : String) (st : PoolSt) :
    Nat × PoolSt :=
  get_or_create_locked alive k
    (if 0 < st.cache.length ∧ st.cache.length % 10 = 0 then
      cleanup_invalid_pages alive st else st)

/-- Well-formedness of a pool state reachable from `poolInit`: dict keys are
unique and every cached page id was produced by the creation counter. -/
def WfPool (st : PoolSt) : Prop :=
  (st.cache.map Prod.fst).Nodup ∧ ∀ kv ∈ st.cache, kv.2 < st.nextPage

/-- Release steps attempted by `close` (lines 533-564), in program order:
closing one cached page, closing the shared context, closing the browser,
stopping the playwright driver. -/
inductive CloseOp
  | closePage (p : Nat)
  | closeContext
  | closeBrowser
  | stopDriver
deriving DecidableEq

/-- Service-level resource state for `close`: the page cache together with
whether `_shared_context`, `browser` and `playwright` are set and the
`_initialized` flag. -/
structure SvcState where
  pages : List (String × Nat)
  context : Bool
  browser : Bool
  driver : Bool
  inited : Bool
deriving DecidableEq

/-- Tail of `close` from the browser step on (lines 557-561): stop the driver
if present — a failure there escapes to the outer handler, skipping the
`_initialized = False` reset — otherwise clear the flag. -/
def close_driver_phase (fails : CloseOp → Bool) (s : SvcState)
    (log : List CloseOp) : SvcState × List CloseOp :=
  if s.driver then
    if fails CloseOp.stopDriver then (s, log ++ [CloseOp.stopDriver])
    else ({ s with driver := false, inited := false }, log ++ [CloseOp.stopDriver])
  else ({ s with inited := false }, log)

/-- `RecaptchaService.close` (lines 533-564).  The whole body sits in one
outer `try/except` that logs and swallows, so `close` never raises.  Pages:
each close attempt has its own inner handler, and the cache is cleared
afterwards regardless (lines 536-543).  Context: its own handler; on failure
the field keeps its value and execution continues (lines 545-551).  Browser
and driver: not individually guarded — a failure jumps to the outer handler
and the remaining steps (including the flag reset) never run (lines 553-561).
Returns the final state and the list of release operations attempted. -/
def close_model (fails : CloseOp → Bool) (s : SvcState) : SvcState × List CloseOp :=
  let pageLog := s.pages.map (fun kv => CloseOp.closePage kv.2)
  let s1 : SvcState := { s with pages := [] }
  let ctxLog : List CloseOp := if s1.context then [CloseOp.closeContext] else []
  let s2 : SvcState :=
    if s1.context && !(fails CloseOp.closeContext) then { s1 with context := false }
    else s1
  if s2.browser then
    if fails CloseOp.closeBrowser then
      (s2, pageLog ++ ctxLog ++ [CloseOp.closeBrowser])
    else
      close_driver_phase fails { s2 with browser := false }
        (pageLog ++ ctxLog ++ [CloseOp.closeBrowser])
  else close_driver_phase fails s2 (pageLog ++ ctxLog)

/-- Counter abstraction of `n` identical asyncio tasks running
`RecaptchaService.initialize` (lines 93-137), cooperative scheduling: each
field `nX` counts the tasks currently at program point `X`.  `inited` is
`self._initialized`, `lockHeld` says whether `self._lock` is held, and
`constructs` counts how many times the engine/context construction block
(lines 102-130) has been entered.  The model covers the success path of
construction; a failed launch re-raises by design (spec section 7). -/
structure InitSys where
  nStart : Nat
  nAwait : Nat
  nLocked : Nat
  nConstr : Nat
  nDone : Nat
  inited : Bool
  lockHeld : Bool
  constructs : Nat
deriving DecidableEq

/-- One cooperative step of some task inside `initialize`.  The code regions
between awaits are atomic. -/
inductive InitStep : InitSys → InitSys → Prop
  /-- Lines 95-96: the unlocked fast path sees `_initialized` and returns. -/
  | fastReturn (s : InitSys) : 0 < s.nStart → s.inited = true →
      InitStep s { s with nStart := s.nStart - 1, nDone := s.nDone + 1 }
  /-- Line 98: the flag is down, so the task proceeds to `async with self._lock`. -/
  | enterWait (s : InitSys) : 0 < s.nStart → s.inited = false →
      InitStep s { s with nStart := s.nStart - 1, nAwait := s.nAwait + 1 }
  /-- Line 98: the lock is free and one waiting task takes it. -/
  | acquire (s : InitSys) : 0 < s.nAwait → s.lockHeld = false →
      InitStep s { s with nAwait := s.nAwait - 1, nLocked := s.nLocked + 1,
                          lockHeld := true }
  /-- Lines 99-100: the double check under the lock sees `_initialized`,
  releases and returns. -/
  | recheckReturn (s : InitSys) : 0 < s.nLocked → s.inited = true →
      InitStep s { s with nLocked := s.nLocked - 1, nDone := s.nDone + 1,
                          lockHeld := false }
  /-- Lines 102-130: the double check fails, so the task starts constructing
  the browser and the shared context. -/
  | beginConstruct (s : InitSys) : 0 < s.nLocked → s.inited = false →
      InitStep s { s with nLocked := s.nLocked - 1, nConstr := s.nConstr + 1,
                          constructs := s.constructs + 1 }
  /-- Lines 132-134: construction finishes, `_initialized` is set while still
  holding the lock, then the lock is released and the call returns. -/
  | finishConstruct (s : InitSys) : 0 < s.nConstr →
      InitStep s { s with nConstr := s.nConstr - 1, nDone := s.nDone + 1,
                          inited := true, lockHeld := false }

/-- Initial state: `n` concurrent `initialize` calls against a fresh service. -/
def initSysStart (n : Nat) : InitSys :=
  { nStart := n, nAwait := 0, nLocked := 0, nConstr := 0, nDone := 0,
    inited := false, lockHeld := false, constructs := 0 }

/-- States reachable by interleaving the `n` calls arbitrarily. -/
def InitReach (n : Nat) (s : InitSys) : Prop :=
  Relation.ReflTransGen InitStep (initSysStart n) s

/-- Counter abstraction of `n` tasks at the admission gate of `get_token`:
`async with self._semaphore` (line 489) with `asyncio.Semaphore(5)` (line 81).
`avail` is the semaphore's free-permit count; `nInside` counts tasks past the
gate.  The three exit steps are the completion paths of the body: the success
return (line 524), the failure return from the `except` handler (line 531),
and a fault escaping the body — `async with` releases the permit on each. -/
structure GateSys where
  nBefore : Nat
  nInside : Nat
  nDone : Nat
  avail : Nat
deriving DecidableEq

/-- One cooperative step at the admission gate. -/
inductive GateStep : GateSys → GateSys → Prop
  /-- Acquire a permit: only possible while one is free; a task beyond the
  bound stays suspended at `nBefore`. -/
  | enter (s : GateSys) : 0 < s.nBefore → 0 < s.avail →
      GateStep s { s with nBefore := s.nBefore - 1, nInside := s.nInside + 1,
                          avail := s.avail - 1 }
  /-- Body completes with a success result; the permit is released. -/
  | exitSuccess (s : GateSys) : 0 < s.nInside →
      GateStep s { s with nInside := s.nInside - 1, nDone := s.nDone + 1,
                          avail := s.avail + 1 }
  /-- Body completes with a failure result; the permit is released. -/
  | exitFailure (s : GateSys) : 0 < s.nInside →
      GateStep s { s with nInside := s.nInside - 1, nDone := s.nDone + 1,
                          avail := s.avail + 1 }
  /-- A fault is raised anywhere in the body; `async with` still releases. -/
  | exitRaised (s : GateSys) : 0 < s.nInside →
      GateStep s { s with nInside := s.nInside - 1, nDone := s.nDone + 1,
                          avail := s.avail + 1 }

/-- Initial gate state for `n` concurrent `get_token` calls. -/
def gateStart (n : Nat) : GateSys :=
  { nBefore := n, nInside := 0, nDone := 0, avail := MAX_CONCURRENT_REQUESTS }

/-- States reachable by interleaving the `n` calls arbitrarily. -/
def GateReach (n : Nat) (s : GateSys) : Prop :=
  Relation.ReflTransGen GateStep (gateStart n) s

/-- Program points of one `get_token` request between page retrieval and
result production, for a fixed session key: `start` is just before
`_get_or_create_page` (line 494); `loading p`, `probing p` and `running p`
are the navigation (lines 498-515), readiness (line 517) and execution
(line 520) phases holding page `p`; `donePage p` is after the result. -/
inductive RacePC
  | start
  | loading (p : Nat)
  | probing (p : Nat)
  | running (p : Nat)
  | donePage (p : Nat)
deriving DecidableEq

/-- Two concurrent `get_token` requests for the same key (the gate capacity 5
admits both).  `entry` is the pool entry for that key; `nextPage` the page
creation counter.  Pages stay live throughout. -/
structure RaceSt where
  pc1 : RacePC
  pc2 : RacePC
  entry : Option Nat
  nextPage : Nat
deriving DecidableEq

/-- Program counter of task `t`. -/
def racePc (s : RaceSt) (t : Bool) : RacePC := if t then s.pc1 else s.pc2

/-- Replace the program counter of task `t`. -/
def setRacePc (s : RaceSt) (t : Bool) (pc : RacePC) : RaceSt :=
  if t then { s with pc1 := pc } else { s with pc2 := pc }

/-- One cooperative step of either request.  `_get_or_create_page` runs under
the cache lock and is atomic here; every later phase sits between awaits
(reload/goto, evaluate, wait_for_function, sleeps), so the other request may
run in between.  No per-key lease is taken anywhere in the source. -/
inductive RaceStep : RaceSt → RaceSt → Prop
  /-- Cache hit (lines 462-467): the stored live page is returned. -/
  | getPageHit (s : RaceSt) (t : Bool) (p : Nat) :
      racePc s t = RacePC.start → s.entry = some p →
      RaceStep s (setRacePc s t (RacePC.loading p))
  /-- Cache miss (lines 472-475): a fresh page is created and cached. -/
  | getPageMiss (s : RaceSt) (t : Bool) :
      racePc s t = RacePC.start → s.entry = none →
      RaceStep s { setRacePc s t (RacePC.loading s.nextPage) with
                    entry := some s.nextPage, nextPage := s.nextPage + 1 }
  /-- Navigation (reload or goto) completes. -/
  | loadStep (s : RaceSt) (t : Bool) (p : Nat) :
      racePc s t = RacePC.loading p → RaceStep s (setRacePc s t (RacePC.probing p))
  /-- Readiness probing completes. -/
  | probeStep (s : RaceSt) (t : Bool) (p : Nat) :
      racePc s t = RacePC.probing p → RaceStep s (setRacePc s t (RacePC.running p))
  /-- Execution completes and the result is produced. -/
  | execStep (s : RaceSt) (t : Bool) (p : Nat) :
      racePc s t = RacePC.running p → RaceStep s (setRacePc s t (RacePC.donePage p))

/-- Both requests still pending, empty pool. -/
def raceStart : RaceSt :=
  { pc1 := RacePC.start, pc2 := RacePC.start, entry := none, nextPage := 0 }

/-- States reachable by interleaving the two same-key requests. -/
def RaceReach (s : RaceSt) : Prop := Relation.ReflTransGen RaceStep raceStart s

/-- Is this program counter inside the navigation-through-execution phase on
page `p`? -/
def inNavExec (pc : RacePC) (p : Nat) : Bool :=
  pc == RacePC.loading p || pc == RacePC.probing p || pc == RacePC.running p

/-- All-transient fault injector for the C5 scenario. -/
def c5Oracle : Nat → EvalOutcome := fun _ => EvalOutcome.exn destroyedMsg

/-- Essential vendor asset of a blocked class: allowed by rule precedence. -/
def reqVendorImg : RouteRequest :=
  { resourceType := "image", url := "https://www.gstatic.com/recaptcha/releases/x.js" }

/-- Plain script from an unrelated host. -/
def reqScript : RouteRequest :=
  { resourceType := "script", url := "https://cdn.example.net/app.js" }

/-- Plain image from an unrelated host. -/
def reqImg : RouteRequest :=
  { resourceType := "image", url := "https://cdn.example.net/a.png" }

/-- Class `other` whose URL contains a secondary-list entry. -/
def reqOtherHit : RouteRequest :=
  { resourceType := "other", url := "https://labs.google/fx/x" }

/-- Class `other` from an unrelated host. -/
def reqOtherMiss : RouteRequest :=
  { resourceType := "other", url := "https://cdn.example.net/x" }

/-- An unanticipated resource class. -/
def reqManifest : RouteRequest :=
  { resourceType := "manifest", url := "https://cdn.example.net/m.webmanifest" }

/-- A blocked-class request from a non-vendor host whose URL path merely
contains the string `recaptcha`. -/
def reqPathTrick : RouteRequest :=
  { resourceType := "image", url := "https://evil.example/recaptcha.png" }

/-- Liveness oracle that keeps every page alive. -/
def aliveAllW : Nat → Bool := fun _ => true

/-- Liveness oracle for the cleanup scenario: pages 0, 1, 2 are dead. -/
def c6AliveLate : Nat → Bool := fun p => decide (3 ≤ p)

/-- Nine insertions under distinct keys, all pages live. -/
def c6Insert9 : PoolSt :=
  (["k1", "k2", "k3", "k4", "k5", "k6", "k7", "k8", "k9"]).foldl
    (fun st k => (get_or_create_page aliveAllW k st).2) poolInit

/-- The 10th insertion, after the pages of k1, k2, k3 have died. -/
def c6St10 : PoolSt := (get_or_create_page c6AliveLate "j10" c6Insert9).2

/-- The next call (a plain lookup of the live k4) after the 10th insertion. -/
def c6St11 : PoolSt := (get_or_create_page c6AliveLate "k4" c6St10).2

/-- A small two-entry pool for witnesses. -/
def c6wSt : PoolSt :=
  { cache := [("a", 0), ("b", 1)], nextPage := 2, closedPages := [] }

/-- Liveness oracle for the small pool: only page 1 lives. -/
def c6wAlive : Nat → Bool := fun p => decide (p = 1)

/-- Failure oracle under which every release step succeeds. -/
def noFailOp : CloseOp → Bool := fun _ => false

/-- The fully-released service state. -/
def svcClosed : SvcState :=
  { pages := [], context := false, browser := false, driver := false, inited := false }

/-- A fully-initialised service with one cached page. -/
def c8FullSt : SvcState :=
  { pages := [("p", 0)], context := true, browser := true, driver := true,
    inited := true }

/-- Failure oracle under which only the browser close fails. -/
def c8FailBrowser : CloseOp → Bool := fun op =>
  match op with
  | CloseOp.closeBrowser => true
  | _ => false

/-- Failure oracle under which only the shared-context close fails. -/
def c8FailContext : CloseOp → Bool := fun op =>
  match op with
  | CloseOp.closeContext => true
  | _ => false

/-- Inductive invariant of the `initialize` system: the lock protects the
locked and constructing points, construction never survives the flag, the
construction counter equals flag-plus-in-flight, and a completed call implies
the flag is up. -/
def InitInv (s : InitSys) : Prop :=
  (s.lockHeld = true → s.nLocked + s.nConstr = 1) ∧
  (s.lockHeld = false → s.nLocked = 0 ∧ s.nConstr = 0) ∧
  (s.inited = true → s.nConstr = 0) ∧
  s.constructs = (if s.inited then 1 else 0) + s.nConstr ∧
  (0 < s.nDone → s.inited = true)

/-- End state of the two-task `initialize` schedule used as a witness. -/
def initWitnessSt : InitSys :=
  { nStart := 0, nAwait := 0, nLocked := 0, nConstr := 0, nDone := 2,
    inited := true, lockHeld := false, constructs := 1 }

/-- Inductive invariant of the admission gate: permits inside plus permits
free always equal the capacity. -/
def GateInv (s : GateSys) : Prop :=
  s.nInside + s.avail = MAX_CONCURRENT_REQUESTS

/-- Gate state after five of six requests have entered. -/
def gateWitnessSt : GateSys :=
  { nBefore := 1, nInside := 5, nDone := 0, avail := 0 }

/-- State in which both same-key requests are navigating the same page. -/
def raceWitnessSt : RaceSt :=
  { pc1 := RacePC.loading 0, pc2 := RacePC.loading 0, entry := some 0,
    nextPage := 1 }

/-! ## Supporting lemmas -/

theorem lookupC_eq_none (l : List (String × Nat)) (k : String)
    (h : k ∉ l.map Prod.fst) : lookupC l k = none := by
  induction l with
  | nil => rfl
  | cons kv rest ih =>
    obtain ⟨k', p⟩ := kv
    simp only [List.map_cons, List.mem_cons, not_or] at h
    rw [lookupC, if_neg (fun he => h.1 he.symm)]
    exact ih h.2

theorem lookupC_mem (l : List (String × Nat)) (k : String) (p : Nat)
    (h : lookupC l k = some p) : (k, p) ∈ l := by
  induction l with
  | nil => cases h
  | cons kv rest ih =>
    obtain ⟨k', p'⟩ := kv
    by_cases hk : k' = k
    · subst hk
      rw [lookupC, if_pos rfl] at h
      cases h
      exact List.mem_cons_self _ _
    · rw [lookupC, if_neg hk] at h
      exact List.mem_cons_of_mem _ (ih h)

theorem lookupC_filter_none (f : String × Nat → Bool) (l : List (String × Nat))
    (k : String) (h : lookupC l k = none) : lookupC (l.filter f) k = none := by
  induction l with
  | nil => rfl
  | cons kv rest ih =>
    obtain ⟨k', p⟩ := kv
    by_cases hk : k' = k
    · rw [lookupC, if_pos hk] at h; cases h
    · rw [lookupC, if_neg hk] at h
      by_cases hf : f (k', p) = true
      · rw [List.filter_cons_of_pos hf, lookupC, if_neg hk]
        exact ih h
      · rw [List.filter_cons_of_neg (by simpa using hf)]
        exact ih h

theorem lookupC_filter (alive : Nat → Bool) (l : List (String × Nat))
    (k : String) (q : Nat) (hnd : (l.map Prod.fst).Nodup) :
    lookupC (l.filter (fun kv => alive kv.2)) k = some q ↔
      lookupC l k = some q ∧ alive q = true := by
  induction l with
  | nil => simp [lookupC]
  | cons kv rest ih =>
    obtain ⟨k', p⟩ := kv
    rw [List.map_cons] at hnd
    have hnd2 := List.nodup_cons.mp hnd
    by_cases hk : k' = k
    · subst hk
      by_cases ha : alive p = true
      · rw [List.filter_cons_of_pos (by simpa using ha)]
        rw [lookupC, if_pos rfl, lookupC, if_pos rfl]
        constructor
        · rintro h; cases h; exact ⟨rfl, ha⟩
        · rintro ⟨h, _⟩; exact h
      · rw [List.filter_cons_of_neg (by simpa using ha)]
        have hrest : lookupC rest k' = none := lookupC_eq_none rest k' hnd2.1
        rw [lookupC_filter_none _ rest k' hrest, lookupC, if_pos rfl]
        constructor
        · rintro h; cases h
        · rintro ⟨h, ha'⟩; cases h; exact absurd ha' ha
    · by_cases hf : alive p = true
      · rw [List.filter_cons_of_pos (by simpa using hf)]
        rw [lookupC, if_neg hk, lookupC, if_neg hk]
        exact ih hnd2.2
      · rw [List.filter_cons_of_neg (by simpa using hf)]
        rw [lookupC, if_neg hk]
        exact ih hnd2.2

theorem lookupC_append_some (l1 l2 : List (String × Nat)) (k : String) (p : Nat)
    (h : lookupC l1 k = some p) : lookupC (l1 ++ l2) k = some p := by
  induction l1 with
  | nil => cases h
  | cons kv rest ih =>
    obtain ⟨k', p'⟩ := kv
    by_cases hk : k' = k
    · rw [lookupC, if_pos hk] at h
      rw [List.cons_append, lookupC, if_pos hk]
      exact h
    · rw [lookupC, if_neg hk] at h
      rw [List.cons_append, lookupC, if_neg hk]
      exact ih h

theorem lookupC_append_none (l1 l2 : List (String × Nat)) (k : String)
    (h : lookupC l1 k = none) : lookupC (l1 ++ l2) k = lookupC l2 k := by
  induction l1 with
  | nil => rfl
  | cons kv rest ih =>
    obtain ⟨k', p'⟩ := kv
    by_cases hk : k' = k
    · rw [lookupC, if_pos hk] at h; cases h
    · rw [lookupC, if_neg hk] at h
      rw [List.cons_append, lookupC, if_neg hk]
      exact ih h

theorem lookupC_eraseKey_self (l : List (String × Nat)) (k : String) :
    lookupC (eraseKey l k) k = none := by
  induction l with
  | nil => rfl
  | cons kv rest ih =>
    obtain ⟨k', p⟩ := kv
    by_cases hk : k' = k
    · rw [eraseKey, if_pos hk]; exact ih
    · rw [eraseKey, if_neg hk, lookupC, if_neg hk]; exact ih

theorem lookupC_eraseKey_ne (l : List (String × Nat)) (k k' : String)
    (h : k' ≠ k) : lookupC (eraseKey l k) k' = lookupC l k' := by
  induction l with
  | nil => rfl
  | cons kv rest ih =>
    obtain ⟨k0, p⟩ := kv
    by_cases hk : k0 = k
    · rw [eraseKey, if_pos hk, lookupC, if_neg (hk ▸ fun he => h he.symm)]
      exact ih
    · rw [eraseKey, if_neg hk, lookupC, lookupC]
      by_cases h0 : k0 = k'
      · rw [if_pos h0, if_pos h0]
      · rw [if_neg h0, if_neg h0]; exact ih

theorem lookupC_single_self (k : String) (n : Nat) :
    lookupC [(k, n)] k = some n := by
  rw [lookupC, if_pos rfl]

theorem lookupC_single_ne (k k' : String) (n : Nat) (h : k' ≠ k) :
    lookupC [(k, n)] k' = none := by
  rw [lookupC, if_neg (fun he => h he.symm)]
  rfl

theorem append_ne_empty_left (s t : String) (h : s ≠ "") : s ++ t ≠ "" := by
  intro he
  apply h
  have hd : (s ++ t).data = s.data ++ t.data := String.data_append s t
  have hnil : s.data ++ t.data = [] := by rw [← hd, he]
  have hs : s.data = [] := (List.append_eq_nil.mp hnil).1
  cases s
  simp_all

theorem process_token_result_exclusive (v : PyValue) :
    (∃ s, process_token_result v = (some s, none) ∧ s ≠ "") ∨
    (∃ msg, process_token_result v = (none, some msg) ∧ msg ≠ "") := by
  cases v with
  | dict t e =>
    cases t with
    | some s =>
      by_cases hs : s = ""
      · exact Or.inr ⟨"reCAPTCHA执行失败: " ++ e.getD "Unknown error",
          by simp [process_token_result, hs], append_ne_empty_left _ _ (by decide)⟩
      · exact Or.inl ⟨s, by simp [process_token_result, hs], hs⟩
    | none =>
      exact Or.inr ⟨"reCAPTCHA执行失败: " ++ e.getD "Unknown error",
        by simp [process_token_result], append_ne_empty_left _ _ (by decide)⟩
  | str s =>
    by_cases hs : s = ""
    · exact Or.inr ⟨nullTokenMsg, by simp [process_token_result, hs], by decide⟩
    · exact Or.inl ⟨s, by simp [process_token_result, hs], hs⟩
  | null => exact Or.inr ⟨nullTokenMsg, by simp [process_token_result], by decide⟩

/-! ## Claim theorems -/

/-- C4: for every session key and every internal operational failure, the
`get_token` boundary converts the fault into a `(None, reason)` failure pair
instead of raising; the only raised faults that escape `get_token` are
initialisation failures (the un-guarded `await self.initialize()` when the
service is not yet initialised). -/
theorem get_token_fault_boundary (inited : Bool) (initRes : Except String Unit)
    (body : BodyOutcome) (e m : String) :
    (get_token_model inited initRes body = Except.error e ↔
        inited = false ∧ initRes = Except.error e) ∧
    get_token_model true initRes (BodyOutcome.raise m) =
      Except.ok (none, some ("获取token异常: " ++ m)) ∧
    get_token_model false (Except.ok ()) (BodyOutcome.raise m) =
      Except.ok (none, some ("获取token异常: " ++ m)) := by
  refine ⟨?_, ?_, ?_⟩
  · cases inited with
    | false =>
      cases initRes with
      | error e' => simp [get_token_model]
      | ok u => cases body <;> simp [get_token_model]
    | true => cases body <;> simp [get_token_model]
  · simp [get_token_model]
  · simp [get_token_model]

/-- C10: every `(token, error)` pair `get_token` returns is exactly one of
the two shapes: a non-empty token with no error, or no token with a non-empty
reason; the `(None, None)` pair is unreachable. -/
theorem get_token_result_exclusive (inited : Bool) (initRes : Except String Unit)
    (body : BodyOutcome) :
    ∀ r, get_token_model inited initRes body = Except.ok r →
      (∃ s, r = (some s, none) ∧ s ≠ "") ∨ (∃ msg, r = (none, some msg) ∧ msg ≠ "") := by
  intro r hr
  unfold get_token_model at hr
  cases hi : (if inited then Except.ok () else initRes) with
  | error e' => rw [hi] at hr; cases hr
  | ok u =>
    rw [hi] at hr
    cases body with
    | value v =>
      have hv : process_token_result v = r := by
        simpa using hr
      rw [← hv]
      exact process_token_result_exclusive v
    | raise m =>
      have hv : (none, some ("获取token异常: " ++ m)) = r := by
        simpa using hr
      rw [← hv]
      exact Or.inr ⟨_, rfl, append_ne_empty_left _ _ (by decide)⟩

/-- Witness for C10 at a concrete successful request. -/
theorem get_token_result_exclusive_witness :
    (∃ s, ((some "tok", none) : Option String × Option String) = (some s, none) ∧ s ≠ "") ∨
    (∃ msg, ((some "tok", none) : Option String × Option String) = (none, some msg) ∧ msg ≠ "") :=
  get_token_result_exclusive true (Except.ok ())
    (BodyOutcome.value (PyValue.dict (some "tok") none)) (some "tok", none) rfl

/-- C5 (amended): if every evaluate attempt raises a transient navigation
interruption, the executor makes exactly `MAX_EXECUTION_RETRIES` attempts,
waiting for page stability and sleeping `RETRY_WAIT_TIME` between them, and
returns the Failure dict carrying the interruption detail
(`Execution error: ...`), not the dedicated max-retries message. -/
theorem execute_retry_exhaustion (attempts : Nat → EvalOutcome) (m0 m1 : String)
    (h0 : attempts 0 = EvalOutcome.exn m0) (h1 : attempts 1 = EvalOutcome.exn m1)
    (ht0 : strContains m0 destroyedMsg = true)
    (ht1 : strContains m1 destroyedMsg = true) :
    (execute_recaptcha attempts).2.1 = MAX_EXECUTION_RETRIES ∧
    (execute_recaptcha attempts).1 =
      PyValue.dict none (some ("Execution error: " ++ m1)) ∧
    (execute_recaptcha attempts).2.2 =
      [ExecAction.waitStable, ExecAction.waitStable,
       ExecAction.sleepSecs RETRY_WAIT_TIME] := by
  have e0 : exec_attempts_go attempts 0 2 =
      (PyValue.dict none (some ("Execution error: " ++ m1)), 2,
       [ExecAction.waitStable, ExecAction.sleepSecs RETRY_WAIT_TIME]) := by
    simp [exec_attempts_go, h0, h1, ht0, ht1, MAX_EXECUTION_RETRIES]
  refine ⟨?_, ?_, ?_⟩ <;>
    simp [execute_recaptcha, MAX_EXECUTION_RETRIES, e0]


/-- Witness for C5 (amended) at the concrete all-transient fault injector. -/
theorem execute_retry_exhaustion_witness :
    (execute_recaptcha c5Oracle).2.1 = MAX_EXECUTION_RETRIES ∧
    (execute_recaptcha c5Oracle).1 =
      PyValue.dict none (some ("Execution error: " ++ destroyedMsg)) ∧
    (execute_recaptcha c5Oracle).2.2 =
      [ExecAction.waitStable, ExecAction.waitStable,
       ExecAction.sleepSecs RETRY_WAIT_TIME] :=
  execute_retry_exhaustion c5Oracle destroyedMsg destroyedMsg rfl rfl
    (by decide) (by decide)

/-- Counterexample to C5 as stated: under the all-transient fault injector
the returned reason is the interruption detail, which is not the max-retries
message (line 400 of the source is unreachable: the final iteration returns
the `Execution error` dict because `retry < MAX_EXECUTION_RETRIES - 1`
fails). -/
theorem execute_retry_counterexample :
    (execute_recaptcha c5Oracle).1 =
      PyValue.dict none (some ("Execution error: " ++ destroyedMsg)) ∧
    ("Execution error: " ++ destroyedMsg ≠ "执行失败：达到最大重试次数") ∧
    strContains ("Execution error: " ++ destroyedMsg) "max retries exceeded" = false := by
  decide

/-- C9 (amended): the router decides by the claimed precedence where
"matches" means the allow-list entry occurs as a substring anywhere in the
lowercased full request URL (not a host match): primary-list substring →
allow; else document/script/xhr/fetch/websocket → allow; else
image/stylesheet/font/media → block; else class `other` → allow iff the URL
contains a secondary-list entry; any remaining class → allow (fail-open). -/
theorem route_handler_precedence (req : RouteRequest) :
    (urlHitsGoogle req = true → route_handler req = RouteDecision.continued) ∧
    (urlHitsGoogle req = false → req.resourceType ∈ allowed_types →
        route_handler req = RouteDecision.continued) ∧
    (urlHitsGoogle req = false → req.resourceType ∉ allowed_types →
        req.resourceType ∈ blocked_types →
        route_handler req = RouteDecision.aborted) ∧
    (urlHitsGoogle req = false → req.resourceType ∉ allowed_types →
        req.resourceType ∉ blocked_types → req.resourceType = "other" →
        (route_handler req = RouteDecision.continued ↔ urlHitsOther req = true)) ∧
    (urlHitsGoogle req = false → req.resourceType ∉ allowed_types →
        req.resourceType ∉ blocked_types → req.resourceType ≠ "other" →
        route_handler req = RouteDecision.continued) := by
  refine ⟨?_, ?_, ?_, ?_, ?_⟩
  · intro h; simp [route_handler, h]
  · intro h1 h2; simp [route_handler, h1, h2]
  · intro h1 h2 h3; simp [route_handler, h1, h2, h3]
  · intro h1 h2 h3 h4
    cases hu : urlHitsOther req <;>
      simp [route_handler, h1, h2, h3, h4, hu] <;> decide
  · intro h1 h2 h3 h4; simp [route_handler, h1, h2, h3, h4]


/-- Witness for C9 (amended): each precedence rule exercised at a concrete
request. -/
theorem route_handler_precedence_witness :
    route_handler reqVendorImg = RouteDecision.continued ∧
    route_handler reqScript = RouteDecision.continued ∧
    route_handler reqImg = RouteDecision.aborted ∧
    route_handler reqOtherHit = RouteDecision.continued ∧
    route_handler reqOtherMiss = RouteDecision.aborted ∧
    route_handler reqManifest = RouteDecision.continued := by
  refine ⟨?_, ?_, ?_, ?_, ?_, ?_⟩
  · exact (route_handler_precedence reqVendorImg).1 (by decide)
  · exact (route_handler_precedence reqScript).2.1 (by decide) (by decide)
  · exact (route_handler_precedence reqImg).2.2.1 (by decide) (by decide) (by decide)
  · exact ((route_handler_precedence reqOtherHit).2.2.2.1 (by decide) (by decide)
      (by decide) rfl).mpr (by decide)
  · have h := (route_handler_precedence reqOtherMiss).2.2.2.1 (by decide) (by decide)
      (by decide) rfl
    cases hr : route_handler reqOtherMiss with
    | continued => exact absurd (h.mp hr) (by decide)
    | aborted => rfl
  · exact (route_handler_precedence reqManifest).2.2.2.2 (by decide) (by decide)
      (by decide) (by decide)


/-- Counterexample to C9 as stated: the code matches the allow-list against
the whole URL, so this image from `evil.example` is allowed, while the
claimed host-based policy blocks it. -/
theorem route_host_claim_counterexample :
    route_handler reqPathTrick = RouteDecision.continued ∧
    route_policy_spec "evil.example" "image" = RouteDecision.aborted := by
  decide

/-- C7: `getOrCreate` returns the cached page when the key is present and its
liveness probe succeeds; replaces a dead hit by a fresh page (removing the
stale entry); and creates, inserts and returns a fresh page on a miss — so a
repeated call for the same key reuses the page, and a call after the page
dies gets a genuinely new one. -/
theorem get_or_create_page_spec (alive : Nat → Bool) (k : String) (st : PoolSt)
    (hw : WfPool st) :
    (∀ p, lookupC st.cache k = some p → alive p = true →
        (get_or_create_page alive k st).1 = p ∧
        lookupC (get_or_create_page alive k st).2.cache k = some p ∧
        (get_or_create_page alive k st).2.nextPage = st.nextPage) ∧
    (∀ p, lookupC st.cache k = some p → alive p = false →
        (get_or_create_page alive k st).1 = st.nextPage ∧ p ≠ st.nextPage ∧
        lookupC (get_or_create_page alive k st).2.cache k = some st.nextPage ∧
        (get_or_create_page alive k st).2.nextPage = st.nextPage + 1) ∧
    (lookupC st.cache k = none →
        (get_or_create_page alive k st).1 = st.nextPage ∧
        lookupC (get_or_create_page alive k st).2.cache k = some st.nextPage ∧
        (get_or_create_page alive k st).2.nextPage = st.nextPage + 1) := by
  by_cases htr : 0 < st.cache.length ∧ st.cache.length % 10 = 0
  · refine ⟨?_, ?_, ?_⟩
    · intro p hp ha
      have h1 : lookupC (cleanup_invalid_pages alive st).cache k = some p :=
        (lookupC_filter alive st.cache k p hw.1).mpr ⟨hp, ha⟩
      simp [get_or_create_page, get_or_create_locked, htr, h1, ha,
        cleanup_invalid_pages] at h1 ⊢
    · intro p hp ha
      have h1 : lookupC (cleanup_invalid_pages alive st).cache k = none := by
        cases hq : lookupC (cleanup_invalid_pages alive st).cache k with
        | none => rfl
        | some q =>
          have := (lookupC_filter alive st.cache k q hw.1).mp
            (by simpa [cleanup_invalid_pages] using hq)
          rw [hp] at this
          cases Option.some.injEq .. ▸ this.1
          exact absurd this.2 (by simp [ha])
      have hpn : p < st.nextPage := hw.2 (k, p) (lookupC_mem st.cache k p hp)
      refine ⟨?_, by omega, ?_, ?_⟩ <;>
        · simp [get_or_create_page, get_or_create_locked, htr, h1,
            cleanup_invalid_pages] at h1 ⊢
          try simp [h1, lookupC_append_none _ _ _ h1, lookupC_single_self]
    · intro hp
      have h1 : lookupC (cleanup_invalid_pages alive st).cache k = none :=
        lookupC_filter_none _ st.cache k hp
      refine ⟨?_, ?_, ?_⟩ <;>
        simp [get_or_create_page, get_or_create_locked, htr,
          cleanup_invalid_pages] at h1 ⊢ <;>
        simp [h1, lookupC_append_none _ _ _ h1, lookupC_single_self]
  · refine ⟨?_, ?_, ?_⟩
    · intro p hp ha
      simp [get_or_create_page, get_or_create_locked, htr, hp, ha]
    · intro p hp ha
      have hpn : p < st.nextPage := hw.2 (k, p) (lookupC_mem st.cache k p hp)
      have he : lookupC (eraseKey st.cache k) k = none := lookupC_eraseKey_self _ _
      refine ⟨?_, by omega, ?_, ?_⟩ <;>
        simp [get_or_create_page, get_or_create_locked, htr, hp, ha,
          lookupC_append_none _ _ _ he, lookupC_single_self]
    · intro hp
      refine ⟨?_, ?_, ?_⟩ <;>
        simp [get_or_create_page, get_or_create_locked, htr, hp,
          lookupC_append_none _ _ _ hp, lookupC_single_self]

/-- Witness for C7: live hit reused, dead hit replaced by a fresh page,
miss creates a fresh page. -/
theorem get_or_create_page_spec_witness :
    ((get_or_create_page c6wAlive "b" c6wSt).1 = 1 ∧
      lookupC (get_or_create_page c6wAlive "b" c6wSt).2.cache "b" = some 1 ∧
      (get_or_create_page c6wAlive "b" c6wSt).2.nextPage = 2) ∧
    ((get_or_create_page c6wAlive "a" c6wSt).1 = 2 ∧ (0 : Nat) ≠ 2 ∧
      lookupC (get_or_create_page c6wAlive "a" c6wSt).2.cache "a" = some 2 ∧
      (get_or_create_page c6wAlive "a" c6wSt).2.nextPage = 3) ∧
    ((get_or_create_page c6wAlive "c" c6wSt).1 = 2 ∧
      lookupC (get_or_create_page c6wAlive "c" c6wSt).2.cache "c" = some 2 ∧
      (get_or_create_page c6wAlive "c" c6wSt).2.nextPage = 3) := by
  refine ⟨?_, ?_, ?_⟩
  · exact (get_or_create_page_spec c6wAlive "b" c6wSt
      ⟨by decide, by decide⟩).1 1 (by decide) (by decide)
  · exact (get_or_create_page_spec c6wAlive "a" c6wSt
      ⟨by decide, by decide⟩).2.1 0 (by decide) (by decide)
  · exact (get_or_create_page_spec c6wAlive "c" c6wSt
      ⟨by decide, by decide⟩).2.2 (by decide)

/-- C6 (amended): the cleanup sweep runs at the start of a `getOrCreate` call
made while the pool holds a positive multiple of ten entries — so it runs on
the call after the 10th insertion, not within that insertion — and when it
runs it deletes from the index exactly the entries whose liveness check
fails, leaves every live entry, and closes nothing (the swept pages are
already dead). -/
theorem cleanup_sweep_spec (alive : Nat → Bool) (st : PoolSt) (k k' : String)
    (p' q : Nat) (hnd : (st.cache.map Prod.fst).Nodup) :
    (lookupC (cleanup_invalid_pages alive st).cache k = some q ↔
        lookupC st.cache k = some q ∧ alive q = true) ∧
    (cleanup_invalid_pages alive st).closedPages = st.closedPages ∧
    (k' ≠ k → lookupC st.cache k' = some p' →
        ¬(0 < st.cache.length ∧ st.cache.length % 10 = 0) →
        lookupC (get_or_create_page alive k st).2.cache k' = some p') ∧
    (k' ≠ k → lookupC st.cache k' = some p' → alive p' = false →
        (0 < st.cache.length ∧ st.cache.length % 10 = 0) →
        lookupC (get_or_create_page alive k st).2.cache k' = none) := by
  refine ⟨?_, rfl, ?_, ?_⟩
  · simpa [cleanup_invalid_pages] using lookupC_filter alive st.cache k q hnd
  · intro hne hp htr
    cases hq : lookupC st.cache k with
    | none =>
      simp [get_or_create_page, get_or_create_locked, htr, hq,
        lookupC_append_some _ _ _ _ hp]
    | some p =>
      by_cases ha : alive p = true
      · simp [get_or_create_page, get_or_create_locked, htr, hq, ha, hp]
      · have he : lookupC (eraseKey st.cache k) k' = some p' := by
          rw [lookupC_eraseKey_ne _ _ _ hne]; exact hp
        simp [get_or_create_page, get_or_create_locked, htr, hq, ha,
          lookupC_append_some _ _ _ _ he]
  · intro hne hp ha htr
    have h1 : lookupC (cleanup_invalid_pages alive st).cache k' = none := by
      cases hq : lookupC (cleanup_invalid_pages alive st).cache k' with
      | none => rfl
      | some q' =>
        have := (lookupC_filter alive st.cache k' q' hnd).mp
          (by simpa [cleanup_invalid_pages] using hq)
        rw [hp] at this
        cases Option.some.injEq .. ▸ this.1
        exact absurd this.2 (by simp [ha])
    cases hq : lookupC (cleanup_invalid_pages alive st).cache k with
    | none =>
      have h2 := lookupC_append_none (cleanup_invalid_pages alive st).cache
        [(k, (cleanup_invalid_pages alive st).nextPage)] k' h1
      simp [get_or_create_page, get_or_create_locked, htr, hq,
        cleanup_invalid_pages] at h1 h2 hq ⊢
      simp [hq, h2, h1, lookupC_single_ne _ _ _ hne]
    | some p =>
      by_cases hap : alive p = true
      · simp [get_or_create_page, get_or_create_locked, htr, hq, hap,
          cleanup_invalid_pages] at h1 hq ⊢
        simp [hq, hap, h1]
      · have he : lookupC (eraseKey (cleanup_invalid_pages alive st).cache k) k'
            = none := by
          rw [lookupC_eraseKey_ne _ _ _ hne]; exact h1
        have h2 := lookupC_append_none
          (eraseKey (cleanup_invalid_pages alive st).cache k)
          [(k, (cleanup_invalid_pages alive st).nextPage)] k' he
        simp [get_or_create_page, get_or_create_locked, htr, hq, hap,
          cleanup_invalid_pages] at h2 hq ⊢
        simp [hq, hap, h2, lookupC_single_ne _ _ _ hne]

/-- Witness for C6 (amended): the sweep characterisation applied at a
concrete pool. -/
theorem cleanup_sweep_spec_witness :
    (lookupC (cleanup_invalid_pages c6wAlive c6wSt).cache "a" = some 0 ↔
        lookupC c6wSt.cache "a" = some 0 ∧ c6wAlive 0 = true) ∧
    lookupC (get_or_create_page c6wAlive "c" c6wSt).2.cache "b" = some 1 := by
  constructor
  · exact (cleanup_sweep_spec c6wAlive c6wSt "a" "b" 1 0 (by decide)).1
  · exact (cleanup_sweep_spec c6wAlive c6wSt "c" "b" 1 0 (by decide)).2.2.1
      (by decide) (by decide) (by decide)

/-- Counterexample to C6 as stated: after the 10th insertion (pool grown to
ten entries, pages 0-2 already dead) the dead entries are all still present —
the sweep only runs at the start of the NEXT call — and when that next call
does sweep them out, no close operation is issued on any of them. -/
theorem cleanup_trigger_counterexample :
    lookupC c6St10.cache "k1" = some 0 ∧ c6AliveLate 0 = false ∧
    c6St10.cache.length = 10 ∧
    lookupC c6St11.cache "k1" = none ∧ lookupC c6St11.cache "k2" = none ∧
    lookupC c6St11.cache "k3" = none ∧ c6St11.cache.length = 7 ∧
    lookupC c6St11.cache "k4" = some 3 ∧
    c6St10.closedPages = [] ∧ c6St11.closedPages = [] := by
  decide

theorem close_model_noFail_state (s : SvcState) :
    (close_model noFailOp s).1 = svcClosed := by
  rcases s with ⟨pages, c, b, d, i⟩
  cases c <;> cases b <;> cases d <;>
    simp [close_model, close_driver_phase, noFailOp, svcClosed]

theorem close_model_closed_noop (fails : CloseOp → Bool) :
    close_model fails svcClosed = (svcClosed, []) := rfl

/-- C8 (amended): `close()` never propagates a failure, is a no-op on an
uninitialised or already-closed service (hence idempotent), and attempts the
release steps in the order pages, shared session, browser, driver; failures
closing individual pages or the shared session are tolerated per step and
the later steps still run, while the browser and driver steps are guarded
only by the enclosing catch-all (their failure aborts the remaining steps —
see the counterexample). -/
theorem close_release_discipline (fails : CloseOp → Bool) (s : SvcState)
    (pages : List (String × Nat)) :
    close_model fails svcClosed = (svcClosed, []) ∧
    close_model fails (close_model noFailOp s).1 = ((close_model noFailOp s).1, []) ∧
    (close_model noFailOp
        { pages := pages, context := true, browser := true, driver := true,
          inited := true }).2 =
      pages.map (fun kv => CloseOp.closePage kv.2) ++
        [CloseOp.closeContext, CloseOp.closeBrowser, CloseOp.stopDriver] ∧
    (fails CloseOp.closeBrowser = false → fails CloseOp.stopDriver = false →
      (close_model fails
          { pages := pages, context := true, browser := true, driver := true,
            inited := true }).1.browser = false ∧
      (close_model fails
          { pages := pages, context := true, browser := true, driver := true,
            inited := true }).1.driver = false ∧
      (close_model fails
          { pages := pages, context := true, browser := true, driver := true,
            inited := true }).1.inited = false ∧
      (close_model fails
          { pages := pages, context := true, browser := true, driver := true,
            inited := true }).2 =
        pages.map (fun kv => CloseOp.closePage kv.2) ++
          [CloseOp.closeContext, CloseOp.closeBrowser, CloseOp.stopDriver]) := by
  refine ⟨close_model_closed_noop fails, ?_, ?_, ?_⟩
  · rw [close_model_noFail_state s]
    exact close_model_closed_noop fails
  · simp [close_model, close_driver_phase, noFailOp]
  · intro hb hd
    cases hc : fails CloseOp.closeContext <;>
      simp [close_model, close_driver_phase, hb, hd, hc]

/-- Witness for C8 (amended): a failed session close still lets the browser
and driver be released and the flag be reset. -/
theorem close_release_discipline_witness :
    (close_model c8FailContext c8FullSt).1.browser = false ∧
    (close_model c8FailContext c8FullSt).1.driver = false ∧
    (close_model c8FailContext c8FullSt).1.inited = false ∧
    (close_model c8FailContext c8FullSt).2 =
      [("p", 0)].map (fun kv => CloseOp.closePage kv.2) ++
        [CloseOp.closeContext, CloseOp.closeBrowser, CloseOp.stopDriver] :=
  (close_release_discipline c8FailContext c8FullSt [("p", 0)]).2.2.2 rfl rfl

/-- Counterexample to C8 as stated: when the browser close fails, the
exception lands in the outer handler and the driver stop never runs — the
stuck browser does prevent the release of the later resource — and the
initialised flag is never reset. -/
theorem close_browser_failure_counterexample :
    (close_model c8FailBrowser c8FullSt).2 =
      [CloseOp.closePage 0, CloseOp.closeContext, CloseOp.closeBrowser] ∧
    CloseOp.stopDriver ∉ (close_model c8FailBrowser c8FullSt).2 ∧
    (close_model c8FailBrowser c8FullSt).1.driver = true ∧
    (close_model c8FailBrowser c8FullSt).1.inited = true := by
  decide

theorem initInv_start (n : Nat) : InitInv (initSysStart n) := by
  refine ⟨?_, ?_, ?_, ?_, ?_⟩ <;> simp [initSysStart]

theorem initInv_step (s s' : InitSys) (hs : InitInv s) (h : InitStep s s') :
    InitInv s' := by
  obtain ⟨h1, h2, h3, h4, h5⟩ := hs
  cases h with
  | fastReturn hn hi =>
    exact ⟨h1, h2, h3, h4, fun _ => hi⟩
  | enterWait hn hi =>
    exact ⟨h1, h2, h3, h4, h5⟩
  | acquire hn hl =>
    have h20 := h2 hl
    refine ⟨?_, ?_, h3, h4, h5⟩
    · intro _; dsimp only; omega
    · intro hx; exact absurd hx (by simp)
  | recheckReturn hn hi =>
    have hlh : s.lockHeld = true := by
      cases hlv : s.lockHeld
      · have := h2 hlv; omega
      · rfl
    have h10 := h1 hlh
    have h30 := h3 hi
    refine ⟨?_, ?_, fun _ => h30, h4, fun _ => hi⟩
    · intro hx; exact absurd hx (by simp)
    · intro _; dsimp only; omega
  | beginConstruct hn hi =>
    have hlh : s.lockHeld = true := by
      cases hlv : s.lockHeld
      · have := h2 hlv; omega
      · rfl
    have h10 := h1 hlh
    refine ⟨?_, ?_, ?_, ?_, ?_⟩
    · intro _; dsimp only; omega
    · intro hx; rw [hlh] at hx; exact absurd hx (by simp)
    · intro hx; rw [hi] at hx; exact absurd hx (by simp)
    · rw [hi] at h4; simp at h4
      dsimp only; rw [hi]; simp; omega
    · intro hd; exact absurd (h5 hd) (by simp [hi])
  | finishConstruct hn =>
    have hlh : s.lockHeld = true := by
      cases hlv : s.lockHeld
      · have := h2 hlv; omega
      · rfl
    have h10 := h1 hlh
    have hif : s.inited = false := by
      cases hiv : s.inited
      · rfl
      · have := h3 hiv; omega
    rw [hif] at h4; simp at h4
    refine ⟨?_, ?_, ?_, ?_, ?_⟩
    · intro hx; exact absurd hx (by simp)
    · intro _; dsimp only; omega
    · intro _; dsimp only; omega
    · dsimp only; simp; omega
    · intro _; rfl

theorem initInv_reach (n : Nat) (s : InitSys) (h : InitReach n s) : InitInv s := by
  induction h with
  | refl => exact initInv_start n
  | tail hab hbc ih => exact initInv_step _ _ ih hbc

/-- C2: `initialize` is idempotent under arbitrary interleaving of any number
of calls: the construction block runs at most once — and exactly once as soon
as any call has completed, which also implies the flag is up; a call arriving
mid-construction waits at the lock and, re-checking the flag, never
duplicates the construction. -/
theorem init_idempotent (n : Nat) (s : InitSys) (h : InitReach n s) :
    s.constructs ≤ 1 ∧ (0 < s.nDone → s.constructs = 1 ∧ s.inited = true) := by
  obtain ⟨h1, h2, h3, h4, h5⟩ := initInv_reach n s h
  constructor
  · cases hv : s.inited
    · rw [hv] at h4; simp at h4
      cases hl : s.lockHeld
      · have := h2 hl; omega
      · have := h1 hl; omega
    · have := h3 hv; rw [hv] at h4; simp at h4; omega
  · intro hd
    have hii := h5 hd
    have := h3 hii
    rw [hii] at h4; simp at h4
    exact ⟨by omega, hii⟩

theorem init_idempotent_trace : InitReach 2 initWitnessSt := by
  have t1 : InitStep (initSysStart 2)
      { nStart := 1, nAwait := 1, nLocked := 0, nConstr := 0, nDone := 0,
        inited := false, lockHeld := false, constructs := 0 } :=
    InitStep.enterWait (initSysStart 2) (by decide) rfl
  have t2 : InitStep
      { nStart := 1, nAwait := 1, nLocked := 0, nConstr := 0, nDone := 0,
        inited := false, lockHeld := false, constructs := 0 }
      { nStart := 1, nAwait := 0, nLocked := 1, nConstr := 0, nDone := 0,
        inited := false, lockHeld := true, constructs := 0 } :=
    InitStep.acquire _ (by decide) rfl
  have t3 : InitStep
      { nStart := 1, nAwait := 0, nLocked := 1, nConstr := 0, nDone := 0,
        inited := false, lockHeld := true, constructs := 0 }
      { nStart := 1, nAwait := 0, nLocked := 0, nConstr := 1, nDone := 0,
        inited := false, lockHeld := true, constructs := 1 } :=
    InitStep.beginConstruct _ (by decide) rfl
  have t4 : InitStep
      { nStart := 1, nAwait := 0, nLocked := 0, nConstr := 1, nDone := 0,
        inited := false, lockHeld := true, constructs := 1 }
      { nStart := 1, nAwait := 0, nLocked := 0, nConstr := 0, nDone := 1,
        inited := true, lockHeld := false, constructs := 1 } :=
    InitStep.finishConstruct _ (by decide)
  have t5 : InitStep
      { nStart := 1, nAwait := 0, nLocked := 0, nConstr := 0, nDone := 1,
        inited := true, lockHeld := false, constructs := 1 }
      initWitnessSt :=
    InitStep.fastReturn _ (by decide) rfl
  exact ((((Relation.ReflTransGen.refl.tail t1).tail t2).tail t3).tail t4).tail t5

/-- Witness for C2: a concrete two-call schedule that constructs once, the
second call waiting for the lock and then fast-returning. -/
theorem init_idempotent_witness :
    initWitnessSt.constructs = 1 ∧ initWitnessSt.inited = true :=
  (init_idempotent 2 initWitnessSt init_idempotent_trace).2 (by decide)

theorem gateInv_reach (n : Nat) (s : GateSys) (h : GateReach n s) : GateInv s := by
  induction h with
  | refl => simp [GateInv, gateStart]
  | tail hab hbc ih =>
    cases hbc with
    | enter hn ha => unfold GateInv at ih ⊢; dsimp only; omega
    | exitSuccess hn => unfold GateInv at ih ⊢; dsimp only; omega
    | exitFailure hn => unfold GateInv at ih ⊢; dsimp only; omega
    | exitRaised hn => unfold GateInv at ih ⊢; dsimp only; omega

/-- C3: under arbitrary interleaving of any number of `get_token` calls, at
most `MAX_CONCURRENT_REQUESTS = 5` are past the admission gate at any moment;
permits inside plus free permits always equal the capacity (so no completion
path — success, failure, or raised fault — leaks a permit), and when nothing
is inside, all five permits are free again. -/
theorem gate_bound (n : Nat) (s : GateSys) (h : GateReach n s) :
    s.nInside ≤ MAX_CONCURRENT_REQUESTS ∧
    s.nInside + s.avail = MAX_CONCURRENT_REQUESTS ∧
    (s.nInside = 0 → s.avail = MAX_CONCURRENT_REQUESTS) := by
  have hi := gateInv_reach n s h
  unfold GateInv at hi
  exact ⟨by omega, hi, by omega⟩

theorem gate_bound_trace : GateReach 6 gateWitnessSt := by
  have t1 : GateStep (gateStart 6)
      { nBefore := 5, nInside := 1, nDone := 0, avail := 4 } :=
    GateStep.enter _ (by decide) (by decide)
  have t2 : GateStep { nBefore := 5, nInside := 1, nDone := 0, avail := 4 }
      { nBefore := 4, nInside := 2, nDone := 0, avail := 3 } :=
    GateStep.enter _ (by decide) (by decide)
  have t3 : GateStep { nBefore := 4, nInside := 2, nDone := 0, avail := 3 }
      { nBefore := 3, nInside := 3, nDone := 0, avail := 2 } :=
    GateStep.enter _ (by decide) (by decide)
  have t4 : GateStep { nBefore := 3, nInside := 3, nDone := 0, avail := 2 }
      { nBefore := 2, nInside := 4, nDone := 0, avail := 1 } :=
    GateStep.enter _ (by decide) (by decide)
  have t5 : GateStep { nBefore := 2, nInside := 4, nDone := 0, avail := 1 }
      gateWitnessSt :=
    GateStep.enter _ (by decide) (by decide)
  exact ((((Relation.ReflTransGen.refl.tail t1).tail t2).tail t3).tail t4).tail t5

/-- Witness for C3: six concurrent calls, five inside, the gate full — the
bound holds with equality and the sixth cannot enter while `avail = 0`. -/
theorem gate_bound_witness :
    gateWitnessSt.nInside = 5 ∧
    gateWitnessSt.nInside ≤ MAX_CONCURRENT_REQUESTS ∧
    gateWitnessSt.nInside + gateWitnessSt.avail = MAX_CONCURRENT_REQUESTS :=
  ⟨rfl, (gate_bound 6 gateWitnessSt gate_bound_trace).1,
    (gate_bound 6 gateWitnessSt gate_bound_trace).2.1⟩

/-- C1 (code bug): no per-key lease exists in `get_token`; with two
concurrent requests for the same key, the schedule in which both retrieve the
pooled page (one creating it, the other hitting the cache) before either
navigates reaches a state where both are inside the navigation-through-
execution phase on the same page object — the phases interleave, violating
the claimed mutual exclusion. -/
theorem same_key_interleaving_reachable :
    RaceReach raceWitnessSt ∧
    inNavExec raceWitnessSt.pc1 0 = true ∧
    inNavExec raceWitnessSt.pc2 0 = true := by
  refine ⟨?_, rfl, rfl⟩
  have t1 : RaceStep raceStart
      { pc1 := RacePC.loading 0, pc2 := RacePC.start, entry := some 0,
        nextPage := 1 } :=
    RaceStep.getPageMiss raceStart true rfl rfl
  have t2 : RaceStep
      { pc1 := RacePC.loading 0, pc2 := RacePC.start, entry := some 0,
        nextPage := 1 }
      raceWitnessSt :=
    RaceStep.getPageHit _ false 0 rfl rfl
  exact (Relation.ReflTransGen.refl.tail t1).tail t2

end Recaptcha
